import Mathlib

/-!
Shallow embedding of the GMap locator component (src/src/App.js).

Numbers are modelled as real numbers `ℝ`.  The component's mutable view
state (`useState` fields) is collected in `AppState`; each handler of the
source becomes a state transformer.  External providers (the directions
service) are parameters; the request that `calculateRoute` sends to the
provider is returned alongside the next state, so that "no provider
request is made" is expressible as the emitted request being `none`.
-/

open Real

/-- A latitude/longitude pair, as the `{ lat, lng }` literals of the source. -/
structure Coord where
  lat : ℝ
  lng : ℝ

/-- A place returned by the places provider: its display name and the
coordinate read off `hospital.geometry.location.lat()/lng()`. -/
structure Place where
  name : String
  location : Coord

/-- The `info` state field of the source: `{ distance, duration }` texts. -/
structure RouteInfo where
  distance : String
  duration : String

/-- The component's `useState` fields that the core logic reads and writes. -/
structure AppState where
  center : Coord
  hospitals : List Place
  nearestHospital : Option Place
  selectedHospital : Option Place
  routePath : List Coord
  info : RouteInfo

/-- Status codes of the places provider (`PlacesServiceStatus`). -/
inductive PlacesStatus where
  | OK
  | ZERO_RESULTS
  | ERROR
deriving DecidableEq

/-- Travel mode sent to the directions service. -/
inductive TravelMode where
  | DRIVING
deriving DecidableEq

/-- The request object `calculateRoute` passes to `directionsService.route`. -/
structure RouteRequest where
  origin : Coord
  destination : Coord
  travelMode : TravelMode

/-- The part of a successful directions response the source reads:
`routes[0].overview_path` and `routes[0].legs[0]` distance/duration texts. -/
structure RouteResult where
  path : List Coord
  distanceText : String
  durationText : String

/-- The route provider: maps a request to `some` successful response or
`none` for a rejected promise (whose rejection the source never handles). -/
def RouteProvider : Type := RouteRequest → Option RouteResult

/-- JavaScript's `Math.atan2 y x` on real inputs. -/
noncomputable def atan2 (y x : ℝ) : ℝ :=
  if 0 < x then Real.arctan (y / x)
  else if x < 0 then
    (if 0 ≤ y then Real.arctan (y / x) + Real.pi else Real.arctan (y / x) - Real.pi)
  else if 0 < y then Real.pi / 2
  else if y < 0 then -(Real.pi / 2)
  else 0

/-- `calculateDistance` of the source: haversine-style distance with
`R = 6371`, computed exactly as written (`2 * atan2(sqrt a, sqrt (1-a))`). -/
noncomputable def calculateDistance (lat1 lng1 lat2 lng2 : ℝ) : ℝ :=
  let R : ℝ := 6371
  let dLat : ℝ := ((lat2 - lat1) * Real.pi) / 180
  let dLng : ℝ := ((lng2 - lng1) * Real.pi) / 180
  let a : ℝ :=
    Real.sin (dLat / 2) * Real.sin (dLat / 2) +
      Real.cos ((lat1 * Real.pi) / 180) *
      Real.cos ((lat2 * Real.pi) / 180) *
      Real.sin (dLng / 2) * Real.sin (dLng / 2)
  let c : ℝ := 2 * atan2 (Real.sqrt a) (Real.sqrt (1 - a))
  R * c

/-- Distance from the current center to a place, as computed inside
`findNearestHospital`'s loop body. -/
noncomputable def distToPlace (center : Coord) (p : Place) : ℝ :=
  calculateDistance center.lat center.lng p.location.lat p.location.lng

/-- One iteration of `findNearestHospital`'s `forEach` loop.  The
accumulator is `none` while `nearest === null` (and `shortestDistance`
is `Infinity`, which every real distance is `<`), and `some (q, s)` once
a nearest candidate `q` with distance `s` has been stored. -/
noncomputable def scanStep (center : Coord) (acc : Option (Place × ℝ))
    (hospital : Place) : Option (Place × ℝ) :=
  let distance := distToPlace center hospital
  match acc with
  | none => some (hospital, distance)
  | some (q, s) => if distance < s then some (hospital, distance) else some (q, s)

/-- The selection part of `findNearestHospital`: the scan over the list. -/
noncomputable def nearestOf (center : Coord) (hospitals : List Place) :
    Option Place :=
  (hospitals.foldl (scanStep center) none).map Prod.fst

/-- `calculateRoute` of the source.  With no destination it returns at
once; otherwise it sends a request built from the current center and the
destination's location, and on a fulfilled response replaces `routePath`
and `info` in the resulting state.  A rejected response leaves the state
unchanged (the source attaches no rejection handler).  The second
component is the request sent to the provider, `none` if no request was
made. -/
noncomputable def calculateRoute (rp : RouteProvider) (s : AppState)
    (hospital : Option Place) : AppState × Option RouteRequest :=
  match hospital with
  | none => (s, none)
  | some h =>
    let req : RouteRequest := ⟨s.center, h.location, TravelMode.DRIVING⟩
    match rp req with
    | none => (s, some req)
    | some results =>
      ({ s with
          routePath := results.path
          info := ⟨results.distanceText, results.durationText⟩ }, some req)

/-- `findNearestHospital` of the source: scan the list, store the winner
in `nearestHospital`, then call `calculateRoute` on it. -/
noncomputable def findNearestHospital (rp : RouteProvider) (s : AppState)
    (hospitals : List Place) : AppState × Option RouteRequest :=
  let nearest := nearestOf s.center hospitals
  calculateRoute rp { s with nearestHospital := nearest } nearest

/-- The `nearbySearch` callback inside `findHospitals`: on status `OK` it
stores the results in `hospitals` and runs `findNearestHospital` on them;
on any other status it does nothing. -/
noncomputable def findHospitalsCallback (rp : RouteProvider) (s : AppState)
    (results : List Place) (status : PlacesStatus) :
    AppState × Option RouteRequest :=
  if status = PlacesStatus.OK then
    findNearestHospital rp { s with hospitals := results } results
  else (s, none)

/-- `handleHospitalClick` of the source: store the clicked place in
`selectedHospital` and request a route to it. -/
noncomputable def handleHospitalClick (rp : RouteProvider) (s : AppState)
    (hospital : Place) : AppState × Option RouteRequest :=
  calculateRoute rp { s with selectedHospital := some hospital } (some hospital)

/-- The geolocation callbacks: `some pos` models the success callback
(`setCenter`), `none` the error callback, which only logs to the console. -/
def handleGeolocation (s : AppState) (result : Option Coord) : AppState :=
  match result with
  | some pos => { s with center := pos }
  | none => s

/-- The initial state set up by the `useState` calls, with the hardcoded
default center `{ lat: 22.681014, lng: 75.879484 }`. -/
noncomputable def initialState : AppState :=
  { center := ⟨22.681014, 75.879484⟩
    hospitals := []
    nearestHospital := none
    selectedHospital := none
    routePath := []
    info := ⟨"", ""⟩ }

/-- The name shown in the "Nearest Hospital" panel of the view:
`selectedHospital ? selectedHospital.name : nearestHospital?.name || "Finding..."`.
(JavaScript `||` falls through on an empty name string.) -/
def displayedNearestName (s : AppState) : String :=
  match s.selectedHospital with
  | some h => h.name
  | none =>
    match s.nearestHospital with
    | some n => if n.name = "" then "Finding..." else n.name
    | none => "Finding..."

/-- Modelled from the spec (section 4.1): the haversine great-circle
distance in kilometers with Earth radius 6371 km, in its `arcsin` form. -/
noncomputable def haversineSpec (lat1 lng1 lat2 lng2 : ℝ) : ℝ :=
  let p1 : ℝ := lat1 * Real.pi / 180
  let p2 : ℝ := lat2 * Real.pi / 180
  let q1 : ℝ := lng1 * Real.pi / 180
  let q2 : ℝ := lng2 * Real.pi / 180
  2 * 6371 *
    Real.arcsin (Real.sqrt
      (Real.sin ((p2 - p1) / 2) ^ 2 +
        Real.cos p1 * Real.cos p2 * Real.sin ((q2 - q1) / 2) ^ 2))

/-- The `a` term of `calculateDistance`, named for the proofs below. -/
noncomputable def havA (lat1 lng1 lat2 lng2 : ℝ) : ℝ :=
  Real.sin ((((lat2 - lat1) * Real.pi) / 180) / 2) *
      Real.sin ((((lat2 - lat1) * Real.pi) / 180) / 2) +
    Real.cos ((lat1 * Real.pi) / 180) *
      Real.cos ((lat2 * Real.pi) / 180) *
      Real.sin ((((lng2 - lng1) * Real.pi) / 180) / 2) *
      Real.sin ((((lng2 - lng1) * Real.pi) / 180) / 2)

lemma calculateDistance_eq_havA (lat1 lng1 lat2 lng2 : ℝ) :
    calculateDistance lat1 lng1 lat2 lng2 =
      6371 * (2 * atan2 (Real.sqrt (havA lat1 lng1 lat2 lng2))
        (Real.sqrt (1 - havA lat1 lng1 lat2 lng2))) := rfl

lemma havA_symm (lat1 lng1 lat2 lng2 : ℝ) :
    havA lat1 lng1 lat2 lng2 = havA lat2 lng2 lat1 lng1 := by
  unfold havA
  have e1 : (((lat1 - lat2) * Real.pi) / 180) / 2 =
      -((((lat2 - lat1) * Real.pi) / 180) / 2) := by ring
  have e2 : (((lng1 - lng2) * Real.pi) / 180) / 2 =
      -((((lng2 - lng1) * Real.pi) / 180) / 2) := by ring
  rw [e1, e2]
  simp only [Real.sin_neg]
  ring

lemma sin_half_mul_self (u : ℝ) :
    Real.sin (u / 2) * Real.sin (u / 2) = (1 - Real.cos u) / 2 := by
  have h1 := Real.sin_sq_add_cos_sq (u / 2)
  have h2 := Real.cos_sq (u / 2)
  have e : 2 * (u / 2) = u := by ring
  rw [e] at h2
  nlinarith [h1, h2]

lemma cos_lat_nonneg {lat : ℝ} (hl : -90 ≤ lat) (hu : lat ≤ 90) :
    0 ≤ Real.cos ((lat * Real.pi) / 180) := by
  apply Real.cos_nonneg_of_neg_pi_div_two_le_of_le
  · nlinarith [Real.pi_pos]
  · nlinarith [Real.pi_pos]

lemma havA_nonneg {lat1 lat2 : ℝ} (lng1 lng2 : ℝ)
    (h1 : -90 ≤ lat1) (h2 : lat1 ≤ 90) (h3 : -90 ≤ lat2) (h4 : lat2 ≤ 90) :
    0 ≤ havA lat1 lng1 lat2 lng2 := by
  unfold havA
  have c1 := cos_lat_nonneg h1 h2
  have c2 := cos_lat_nonneg h3 h4
  nlinarith [mul_self_nonneg (Real.sin ((((lat2 - lat1) * Real.pi) / 180) / 2)),
    mul_self_nonneg (Real.sin ((((lng2 - lng1) * Real.pi) / 180) / 2)),
    mul_nonneg c1 c2]

lemma havA_le_one {lat1 lat2 : ℝ} (lng1 lng2 : ℝ)
    (h1 : -90 ≤ lat1) (h2 : lat1 ≤ 90) (h3 : -90 ≤ lat2) (h4 : lat2 ≤ 90) :
    havA lat1 lng1 lat2 lng2 ≤ 1 := by
  unfold havA
  have c1 := cos_lat_nonneg h1 h2
  have c2 := cos_lat_nonneg h3 h4
  have hhalf := sin_half_mul_self (((lat2 - lat1) * Real.pi) / 180)
  have eu : ((lat2 - lat1) * Real.pi) / 180 =
      (lat2 * Real.pi) / 180 - (lat1 * Real.pi) / 180 := by ring
  rw [eu] at hhalf
  rw [eu, hhalf]
  have hcos := Real.cos_sub ((lat2 * Real.pi) / 180) ((lat1 * Real.pi) / 180)
  have hadd := Real.cos_add ((lat1 * Real.pi) / 180) ((lat2 * Real.pi) / 180)
  have hle := Real.cos_le_one ((lat1 * Real.pi) / 180 + (lat2 * Real.pi) / 180)
  have hs1 := Real.sin_le_one ((((lng2 - lng1) * Real.pi) / 180) / 2)
  have hs2 := Real.neg_one_le_sin ((((lng2 - lng1) * Real.pi) / 180) / 2)
  have ht : 0 ≤ 1 - Real.sin ((((lng2 - lng1) * Real.pi) / 180) / 2) *
      Real.sin ((((lng2 - lng1) * Real.pi) / 180) / 2) := by nlinarith
  nlinarith [mul_nonneg (mul_nonneg c1 c2) ht]

lemma atan2_sqrt_eq_arcsin {a : ℝ} (h0 : 0 ≤ a) (h1 : a ≤ 1) :
    atan2 (Real.sqrt a) (Real.sqrt (1 - a)) = Real.arcsin (Real.sqrt a) := by
  rcases lt_or_eq_of_le h1 with hlt | heq
  · have hx : 0 < Real.sqrt (1 - a) := Real.sqrt_pos.mpr (by linarith)
    have ht0 : 0 ≤ Real.sqrt a := Real.sqrt_nonneg a
    have ht2 : Real.sqrt a ^ 2 = a := Real.sq_sqrt h0
    have ht1 : Real.sqrt a < 1 := by nlinarith
    rw [atan2, if_pos hx,
      Real.arcsin_eq_arctan ⟨by linarith, ht1⟩]
    congr 2
    rw [ht2]
  · subst heq
    have e : (1 : ℝ) - 1 = 0 := by ring
    rw [atan2, e, Real.sqrt_zero, Real.sqrt_one]
    norm_num [Real.arcsin_one, Real.pi_pos]

/-- The running winner of `findNearestHospital`'s loop once a first
candidate `q` has been stored: scan `l`, replacing the winner exactly when
a strictly smaller distance appears. -/
noncomputable def selectMin (c : Coord) : Place → List Place → Place
  | q, [] => q
  | q, p :: l =>
    if distToPlace c p < distToPlace c q then selectMin c p l else selectMin c q l

lemma foldl_scanStep_some (c : Coord) (l : List Place) : ∀ q : Place,
    l.foldl (scanStep c) (some (q, distToPlace c q)) =
      some (selectMin c q l, distToPlace c (selectMin c q l)) := by
  induction l with
  | nil => intro q; rfl
  | cons p l ih =>
    intro q
    rw [List.foldl_cons]
    have hstep : scanStep c (some (q, distToPlace c q)) p =
        if distToPlace c p < distToPlace c q then some (p, distToPlace c p)
        else some (q, distToPlace c q) := rfl
    rw [hstep]
    by_cases h : distToPlace c p < distToPlace c q
    · rw [if_pos h]
      have hsel : selectMin c q (p :: l) = selectMin c p l := by
        simp only [selectMin, if_pos h]
      rw [hsel]
      exact ih p
    · rw [if_neg h]
      have hsel : selectMin c q (p :: l) = selectMin c q l := by
        simp only [selectMin, if_neg h]
      rw [hsel]
      exact ih q

lemma nearestOf_cons (c : Coord) (p : Place) (l : List Place) :
    nearestOf c (p :: l) = some (selectMin c p l) := by
  unfold nearestOf
  rw [List.foldl_cons]
  have h1 : scanStep c none p = some (p, distToPlace c p) := rfl
  rw [h1, foldl_scanStep_some]
  rfl

lemma selectMin_le_head (c : Coord) (l : List Place) : ∀ q : Place,
    distToPlace c (selectMin c q l) ≤ distToPlace c q := by
  induction l with
  | nil => intro q; exact le_of_eq rfl
  | cons p l ih =>
    intro q
    by_cases h : distToPlace c p < distToPlace c q
    · have hsel : selectMin c q (p :: l) = selectMin c p l := by
        simp only [selectMin, if_pos h]
      rw [hsel]
      exact le_trans (ih p) (le_of_lt h)
    · have hsel : selectMin c q (p :: l) = selectMin c q l := by
        simp only [selectMin, if_neg h]
      rw [hsel]
      exact ih q

lemma selectMin_split (c : Coord) (l : List Place) : ∀ q : Place,
    ∃ l1 l2, q :: l = l1 ++ selectMin c q l :: l2 ∧
      (∀ r ∈ l1, distToPlace c (selectMin c q l) < distToPlace c r) ∧
      (∀ r ∈ l2, distToPlace c (selectMin c q l) ≤ distToPlace c r) := by
  induction l with
  | nil =>
    intro q
    refine ⟨[], [], rfl, ?_, ?_⟩ <;> exact fun r hr => absurd hr (List.not_mem_nil r)
  | cons p l ih =>
    intro q
    by_cases h : distToPlace c p < distToPlace c q
    · have hsel : selectMin c q (p :: l) = selectMin c p l := by
        simp only [selectMin, if_pos h]
      rw [hsel]
      obtain ⟨l1, l2, heq, hb, ha⟩ := ih p
      refine ⟨q :: l1, l2, ?_, ?_, ha⟩
      · rw [List.cons_append, ← heq]
      · intro r hr
        rcases List.mem_cons.mp hr with rfl | hr'
        · exact lt_of_le_of_lt (selectMin_le_head c l p) h
        · exact hb r hr'
    · have hsel : selectMin c q (p :: l) = selectMin c q l := by
        simp only [selectMin, if_neg h]
      rw [hsel]
      obtain ⟨l1, l2, heq, hb, ha⟩ := ih q
      cases l1 with
      | nil =>
        rw [List.nil_append] at heq
        injection heq with h1 h2
        refine ⟨[], p :: l, ?_, ?_, ?_⟩
        · rw [List.nil_append, ← h1]
        · intro r hr; cases hr
        · intro r hr
          rcases List.mem_cons.mp hr with rfl | hr'
          · rw [← h1]; exact not_lt.mp h
          · exact ha r (h2 ▸ hr')
      | cons x l1' =>
        rw [List.cons_append] at heq
        injection heq with h1 h2
        refine ⟨q :: p :: l1', l2, ?_, ?_, ha⟩
        · simp only [List.cons_append]
          exact congrArg (fun t => q :: p :: t) h2
        · intro r hr
          have hmq : distToPlace c (selectMin c q l) < distToPlace c q :=
            hb q (by rw [h1]; exact List.mem_cons_self x l1')
          rcases List.mem_cons.mp hr with rfl | hr'
          · exact hmq
          · rcases List.mem_cons.mp hr' with rfl | hr''
            · exact lt_of_lt_of_le hmq (not_lt.mp h)
            · exact hb r (List.mem_cons_of_mem x hr'')

lemma calculateRoute_nearest_frame (rp : RouteProvider) (s : AppState)
    (h : Option Place) :
    (calculateRoute rp s h).1.nearestHospital = s.nearestHospital := by
  cases h with
  | none => rfl
  | some h =>
    cases hr : rp ⟨s.center, h.location, TravelMode.DRIVING⟩ <;>
      simp [calculateRoute, hr]

lemma calculateRoute_hospitals_frame (rp : RouteProvider) (s : AppState)
    (h : Option Place) :
    (calculateRoute rp s h).1.hospitals = s.hospitals := by
  cases h with
  | none => rfl
  | some h =>
    cases hr : rp ⟨s.center, h.location, TravelMode.DRIVING⟩ <;>
      simp [calculateRoute, hr]

lemma calculateRoute_selected_frame (rp : RouteProvider) (s : AppState)
    (h : Option Place) :
    (calculateRoute rp s h).1.selectedHospital = s.selectedHospital := by
  cases h with
  | none => rfl
  | some h =>
    cases hr : rp ⟨s.center, h.location, TravelMode.DRIVING⟩ <;>
      simp [calculateRoute, hr]

lemma calculateRoute_snd_some (rp : RouteProvider) (s : AppState) (h : Place) :
    (calculateRoute rp s (some h)).2 =
      some ⟨s.center, h.location, TravelMode.DRIVING⟩ := by
  cases hr : rp ⟨s.center, h.location, TravelMode.DRIVING⟩ <;>
    simp [calculateRoute, hr]

lemma findNearestHospital_nearest (rp : RouteProvider) (s : AppState)
    (hospitals : List Place) :
    (findNearestHospital rp s hospitals).1.nearestHospital =
      nearestOf s.center hospitals := by
  unfold findNearestHospital
  rw [calculateRoute_nearest_frame]

lemma findNearestHospital_hospitals (rp : RouteProvider) (s : AppState)
    (hospitals : List Place) :
    (findNearestHospital rp s hospitals).1.hospitals = s.hospitals := by
  unfold findNearestHospital
  rw [calculateRoute_hospitals_frame]

/-- A sample place used to instantiate theorems at concrete inputs. -/
noncomputable def samplePlace : Place := ⟨"City Hospital", ⟨1, 2⟩⟩

/-- A route provider that rejects every request. -/
noncomputable def rejectingProvider : RouteProvider := fun _ => none

/-- A sample successful directions response. -/
noncomputable def sampleResult : RouteResult := ⟨[⟨0, 0⟩, ⟨1, 2⟩], "3 km", "7 mins"⟩

/-- A route provider that fulfils every request with `sampleResult`. -/
noncomputable def fulfillingProvider : RouteProvider := fun _ => some sampleResult

/-- A second sample place for concrete instantiations. -/
noncomputable def samplePlace2 : Place := ⟨"General Hospital", ⟨3, 4⟩⟩

/-- C1: for every center and non-empty list of places, `findNearestHospital`
stores the place of the list minimizing `calculateDistance` from the center;
on ties the first occurrence in scan order wins, because the comparison is
strict less-than: every place before the winner is strictly farther, every
place after it is at least as far. -/
theorem C1_findNearestHospital_minimizes (rp : RouteProvider) (s : AppState)
    (hospitals : List Place) (hne : hospitals ≠ []) :
    ∃ m l1 l2,
      (findNearestHospital rp s hospitals).1.nearestHospital = some m ∧
      hospitals = l1 ++ m :: l2 ∧
      (∀ r ∈ hospitals, distToPlace s.center m ≤ distToPlace s.center r) ∧
      (∀ r ∈ l1, distToPlace s.center m < distToPlace s.center r) ∧
      (∀ r ∈ l2, distToPlace s.center m ≤ distToPlace s.center r) := by
  cases hospitals with
  | nil => exact absurd rfl hne
  | cons p l =>
    obtain ⟨l1, l2, heq, hb, ha⟩ := selectMin_split s.center l p
    refine ⟨selectMin s.center p l, l1, l2, ?_, heq, ?_, hb, ha⟩
    · rw [findNearestHospital_nearest, nearestOf_cons]
    · intro r hr
      rw [heq] at hr
      rcases List.mem_append.mp hr with hr1 | hr2
      · exact le_of_lt (hb r hr1)
      · rcases List.mem_cons.mp hr2 with rfl | hr3
        · exact le_refl _
        · exact ha r hr3

theorem C1_witness :
    ([samplePlace] : List Place) ≠ [] ∧
    ∃ m l1 l2,
      (findNearestHospital rejectingProvider initialState
        [samplePlace]).1.nearestHospital = some m ∧
      [samplePlace] = l1 ++ m :: l2 ∧
      (∀ r ∈ [samplePlace], distToPlace initialState.center m ≤
        distToPlace initialState.center r) ∧
      (∀ r ∈ l1, distToPlace initialState.center m <
        distToPlace initialState.center r) ∧
      (∀ r ∈ l2, distToPlace initialState.center m ≤
        distToPlace initialState.center r) :=
  ⟨by simp, C1_findNearestHospital_minimizes rejectingProvider initialState
    [samplePlace] (by simp)⟩

/-- C2: `findNearestHospital` on an empty candidate list sets the nearest
place to `none` and makes no route request. -/
theorem C2_empty_list_no_selection (rp : RouteProvider) (s : AppState) :
    findNearestHospital rp s [] = ({ s with nearestHospital := none }, none) := rfl

/-- C3: `calculateRoute` with an absent destination sends no provider
request and leaves the state — in particular the stored route path and
info text — unchanged. -/
theorem C3_null_destination_noop (rp : RouteProvider) (s : AppState) :
    calculateRoute rp s none = (s, none) := rfl

/-- C4: the hospital-search callback replaces the candidate list and
triggers the nearest-selector exactly when the provider status is `OK`;
on any other status the whole state is left unchanged and no request is
made. -/
theorem C4_status_gates_update (rp : RouteProvider) (s : AppState)
    (results : List Place) (status : PlacesStatus) :
    (status = PlacesStatus.OK →
      (findHospitalsCallback rp s results status).1.hospitals = results ∧
      (findHospitalsCallback rp s results status).1.nearestHospital =
        nearestOf s.center results) ∧
    (status ≠ PlacesStatus.OK →
      findHospitalsCallback rp s results status = (s, none)) := by
  constructor
  · intro h
    subst h
    constructor
    · unfold findHospitalsCallback
      rw [if_pos rfl, findNearestHospital_hospitals]
    · unfold findHospitalsCallback
      rw [if_pos rfl, findNearestHospital_nearest]
  · intro h
    unfold findHospitalsCallback
    rw [if_neg h]

theorem C4_witness :
    findHospitalsCallback rejectingProvider initialState [samplePlace]
      PlacesStatus.ERROR = (initialState, none) ∧
    (findHospitalsCallback rejectingProvider initialState [samplePlace]
      PlacesStatus.OK).1.hospitals = [samplePlace] :=
  ⟨(C4_status_gates_update rejectingProvider initialState [samplePlace]
      PlacesStatus.ERROR).2 (by decide),
   ((C4_status_gates_update rejectingProvider initialState [samplePlace]
      PlacesStatus.OK).1 rfl).1⟩

/-- C5: on a fulfilled route response, `calculateRoute` produces a single
successor state in which the route path and the distance/duration info
text are both replaced; no state with only one of the two updated exists
in the transition. -/
theorem C5_route_success_updates_both (rp : RouteProvider) (s : AppState)
    (h : Place) (results : RouteResult)
    (hok : rp ⟨s.center, h.location, TravelMode.DRIVING⟩ = some results) :
    calculateRoute rp s (some h) =
      ({ s with
          routePath := results.path
          info := ⟨results.distanceText, results.durationText⟩ },
        some ⟨s.center, h.location, TravelMode.DRIVING⟩) := by
  simp [calculateRoute, hok]

theorem C5_witness :
    fulfillingProvider
      ⟨initialState.center, samplePlace.location, TravelMode.DRIVING⟩ =
        some sampleResult ∧
    calculateRoute fulfillingProvider initialState (some samplePlace) =
      ({ initialState with
          routePath := sampleResult.path
          info := ⟨sampleResult.distanceText, sampleResult.durationText⟩ },
        some ⟨initialState.center, samplePlace.location, TravelMode.DRIVING⟩) :=
  ⟨rfl, C5_route_success_updates_both fulfillingProvider initialState
    samplePlace sampleResult rfl⟩

/-- C6: for coordinates with latitude in [-90, 90] and longitude in
[-180, 180], `calculateDistance` equals the haversine great-circle
distance with Earth radius 6371 km (a total real-valued function of its
inputs: deterministic and side-effect free by construction). -/
theorem C6_calculateDistance_haversine (lat1 lng1 lat2 lng2 : ℝ)
    (h1 : -90 ≤ lat1) (h2 : lat1 ≤ 90) (h3 : -90 ≤ lat2) (h4 : lat2 ≤ 90)
    (h5 : -180 ≤ lng1) (h6 : lng1 ≤ 180) (h7 : -180 ≤ lng2) (h8 : lng2 ≤ 180) :
    calculateDistance lat1 lng1 lat2 lng2 = haversineSpec lat1 lng1 lat2 lng2 := by
  have h0 := havA_nonneg lng1 lng2 h1 h2 h3 h4
  have hle := havA_le_one lng1 lng2 h1 h2 h3 h4
  rw [calculateDistance_eq_havA, atan2_sqrt_eq_arcsin h0 hle]
  have eA : havA lat1 lng1 lat2 lng2 =
      Real.sin ((lat2 * Real.pi / 180 - lat1 * Real.pi / 180) / 2) ^ 2 +
        Real.cos (lat1 * Real.pi / 180) * Real.cos (lat2 * Real.pi / 180) *
          Real.sin ((lng2 * Real.pi / 180 - lng1 * Real.pi / 180) / 2) ^ 2 := by
    unfold havA
    have e1 : (((lat2 - lat1) * Real.pi) / 180) / 2 =
        (lat2 * Real.pi / 180 - lat1 * Real.pi / 180) / 2 := by ring
    have e2 : (((lng2 - lng1) * Real.pi) / 180) / 2 =
        (lng2 * Real.pi / 180 - lng1 * Real.pi / 180) / 2 := by ring
    rw [e1, e2]
    ring
  rw [eA]
  simp only [haversineSpec]
  ring

theorem C6_witness :
    ((-90 : ℝ) ≤ 0 ∧ (0 : ℝ) ≤ 90 ∧ (-90 : ℝ) ≤ 10 ∧ (10 : ℝ) ≤ 90 ∧
      (-180 : ℝ) ≤ 0 ∧ (0 : ℝ) ≤ 180 ∧ (-180 : ℝ) ≤ 20 ∧ (20 : ℝ) ≤ 180) ∧
    calculateDistance 0 0 10 20 = haversineSpec 0 0 10 20 :=
  ⟨by norm_num,
   C6_calculateDistance_haversine 0 0 10 20 (by norm_num) (by norm_num)
     (by norm_num) (by norm_num) (by norm_num) (by norm_num) (by norm_num)
     (by norm_num)⟩

/-- C7: `calculateDistance` is symmetric in its two coordinate pairs. -/
theorem C7_calculateDistance_symm (lat1 lng1 lat2 lng2 : ℝ) :
    calculateDistance lat1 lng1 lat2 lng2 =
      calculateDistance lat2 lng2 lat1 lng1 := by
  rw [calculateDistance_eq_havA, calculateDistance_eq_havA, havA_symm]

/-- C8: clicking any marker switches the displayed selected name to that
marker's name and issues a route request from the current center to that
marker's location, while the stored nearest hospital is untouched —
the behaviour is the same whatever hospital was computed as nearest. -/
theorem C8_click_overrides_nearest (rp : RouteProvider) (s : AppState)
    (hospital : Place) :
    displayedNearestName (handleHospitalClick rp s hospital).1 =
      hospital.name ∧
    (handleHospitalClick rp s hospital).2 =
      some ⟨s.center, hospital.location, TravelMode.DRIVING⟩ ∧
    (handleHospitalClick rp s hospital).1.nearestHospital =
      s.nearestHospital := by
  refine ⟨?_, ?_, ?_⟩
  · have hsel : (handleHospitalClick rp s hospital).1.selectedHospital =
        some hospital := by
      unfold handleHospitalClick
      rw [calculateRoute_selected_frame]
    unfold displayedNearestName
    rw [hsel]
  · unfold handleHospitalClick
    rw [calculateRoute_snd_some]
  · unfold handleHospitalClick
    rw [calculateRoute_nearest_frame]

/-- C9: the geolocation error callback changes nothing in the state, so
the center keeps its value — on startup the hardcoded default coordinate
(22.681014, 75.879484). -/
theorem C9_geolocation_failure_keeps_default :
    (∀ s : AppState, handleGeolocation s none = s) ∧
    initialState.center = ⟨22.681014, 75.879484⟩ :=
  ⟨fun _ => rfl, rfl⟩

/-- C10: on every non-empty candidate list (all real-valued distances
being finite), the stored nearest place is `some` element of that list. -/
theorem C10_nearest_is_member (rp : RouteProvider) (s : AppState)
    (hospitals : List Place) (hne : hospitals ≠ []) :
    ∃ m, (findNearestHospital rp s hospitals).1.nearestHospital = some m ∧
      m ∈ hospitals := by
  cases hospitals with
  | nil => exact absurd rfl hne
  | cons p l =>
    obtain ⟨l1, l2, heq, _, _⟩ := selectMin_split s.center l p
    refine ⟨selectMin s.center p l, ?_, ?_⟩
    · rw [findNearestHospital_nearest, nearestOf_cons]
    · rw [heq]
      exact List.mem_append.mpr (Or.inr (List.mem_cons_self _ _))

theorem C10_witness :
    ([samplePlace, samplePlace2] : List Place) ≠ [] ∧
    ∃ m, (findNearestHospital rejectingProvider initialState
        [samplePlace, samplePlace2]).1.nearestHospital = some m ∧
      m ∈ [samplePlace, samplePlace2] :=
  ⟨by simp, C10_nearest_is_member rejectingProvider initialState
    [samplePlace, samplePlace2] (by simp)⟩
